import Mathlib

/-!
Shallow embedding of the LiveTabs tab manager (src/LiveTabs.ts).

State modelled: the instance fields `openedId : string`,
`maxNumTabs?: number` and `tabContentMap : Map<string, string>`.
A JavaScript `Map` is an insertion-ordered collection with unique keys; it
is modelled as an association list on which `set` updates in place (keeping
the entry's position) when the key is present and appends otherwise, exactly
as `Map.prototype.set` behaves.

DOM-only effects (element creation/removal, CSS classes, `display` styles,
alerts and console warnings) are not part of the state; the alert / warning
outcomes of `addTab` and `removeTab` are reflected in explicit result values
so that the error-signalling paths remain observable.  `reorderingMap` reads
the rendered tab order from the DOM; that order is passed in as an explicit
list argument.
-/

/-- A JavaScript Map of strings to strings, as an insertion-ordered
association list. -/
abbrev JSMap := List (String × String)

/-- Map.prototype.has. -/
def mapHas (m : JSMap) (k : String) : Bool :=
  m.any (fun p => p.1 == k)

/-- Map.prototype.get; a missing key (JS undefined) becomes none. -/
def mapGet (m : JSMap) (k : String) : Option String :=
  (m.find? (fun p => p.1 == k)).map Prod.snd

/-- Map.prototype.set: if the key is present the entry is updated in place
(keeping its position in the insertion order), otherwise the new entry is
appended at the end. -/
def mapSet (m : JSMap) (k v : String) : JSMap :=
  if mapHas m k then m.map (fun p => if p.1 == k then (k, v) else p)
  else m ++ [(k, v)]

/-- Map.prototype.delete (ignoring the returned Boolean, which the source
never uses). -/
def mapDelete (m : JSMap) (k : String) : JSMap :=
  m.filter (fun p => p.1 != k)

/-- Array.from(map.keys()): the keys in insertion order. -/
def mapKeys (m : JSMap) : List String :=
  m.map Prod.fst

/-- Map.prototype.size. -/
def mapSize (m : JSMap) : Nat :=
  m.length

/-- The model state of a LiveTabs instance: `openedId`, `maxNumTabs` and
`tabContentMap` (src/LiveTabs.ts lines 24-28).  `parentDiv` and `navbarDiv`
are DOM handles with no bearing on the claims. -/
structure LiveTabs where
  openedId : String
  maxNumTabs : Option Nat
  tabContentMap : JSMap
deriving DecidableEq

/-- The constructor (src/LiveTabs.ts lines 31-38): empty `openedId`,
`maxNumTabs` from the options, empty map. -/
def LiveTabs.init (maxNumTabs : Option Nat) : LiveTabs :=
  { openedId := "", maxNumTabs := maxNumTabs, tabContentMap := [] }

/-- The title sanitization of addTab (line 78):
`tabTitle.replace(/[^a-zA-Z0-9]/g, '').toLowerCase()` — strip every
character outside A-Za-z0-9, then lowercase. -/
def sanitizeTitle (tabTitle : String) : String :=
  String.mk ((tabTitle.toList.filter Char.isAlphanum).map Char.toLower)

/-- The tab id derived from a title (line 80). -/
def tabIdOf (tabTitle : String) : String :=
  "lt-tab-" ++ sanitizeTitle tabTitle

/-- The content id derived from a title (line 95). -/
def contentIdOf (tabTitle : String) : String :=
  sanitizeTitle tabTitle ++ "-container"

/-- switchTab (lines 324-344).  Only `openedId` belongs to the model; the
rest of the body toggles CSS classes and display styles on DOM elements
looked up by id.  Note the body performs no membership check on the store:
the requested id is assigned to `openedId` unconditionally (after the
early return when it is already the active id). -/
def LiveTabs.switchTab (s : LiveTabs) (id : String) : LiveTabs :=
  if s.openedId == id then s else { s with openedId := id }

/-- The capacity guard of addTab (line 71):
`this.maxNumTabs && this.tabContentMap.size >= this.maxNumTabs`.
In JavaScript both `undefined` and `0` are falsy, so a maximum of 0 never
triggers the guard. -/
def LiveTabs.capacityReached (s : LiveTabs) : Bool :=
  match s.maxNumTabs with
  | none => false
  | some m => m != 0 && decide (mapSize s.tabContentMap ≥ m)

/-- Which of the three exit paths addTab took: the capacity alert (line 73),
the switch-to-existing-tab path (line 85), or a fresh insertion. -/
inductive AddResult
  | maxReached
  | switchedExisting
  | added
deriving DecidableEq

/-- addTab (lines 61-106).  DOM rendering and the `addContent` callback do
not touch the model fields; the callback is only handed the content id. -/
def LiveTabs.addTab (s : LiveTabs) (tabTitle : String) : LiveTabs × AddResult :=
  if s.capacityReached then (s, .maxReached)
  else
    let tabId := tabIdOf tabTitle
    if mapHas s.tabContentMap tabId then (s.switchTab tabId, .switchedExisting)
    else
      let s1 : LiveTabs :=
        { s with tabContentMap := mapSet s.tabContentMap tabId (contentIdOf tabTitle) }
      (s1.switchTab tabId, .added)

/-- Whether removeTab hit the not-found warning (line 262) or performed a
removal. -/
inductive RemoveResult
  | notFound
  | removed
deriving DecidableEq

/-- Array.prototype.indexOf: the first index of the element, or -1 when it
is absent. -/
def jsIndexOf (l : List String) (a : String) : Int :=
  if a ∈ l then (l.indexOf a : Int) else -1

/-- JavaScript array indexing `l[i]`: undefined (none) outside the bounds,
including every negative index. -/
def jsGetAt (l : List String) (i : Int) : Option String :=
  if 0 ≤ i then l.get? i.toNat else none

/-- removeTab (lines 260-297).  `tabsArray` is captured BEFORE the deletion
(line 275, comment: include also the deleted tab); the final
`if (switchToTabId)` is a JS truthiness test, false for both undefined and
the empty string. -/
def LiveTabs.removeTab (s : LiveTabs) (idTab : String) : LiveTabs × RemoveResult :=
  if mapHas s.tabContentMap idTab = false then (s, .notFound)
  else
    let tabsArray := mapKeys s.tabContentMap
    let s1 : LiveTabs := { s with tabContentMap := mapDelete s.tabContentMap idTab }
    if mapHas s1.tabContentMap s1.openedId then (s1, .removed)
    else if tabsArray.length == 0 then ({ s1 with openedId := "" }, .removed)
    else
      let removedTabIndex := jsIndexOf tabsArray idTab
      let nextTabIndex :=
        if removedTabIndex < (tabsArray.length : Int) - 1 then removedTabIndex + 1
        else removedTabIndex - 1
      match jsGetAt tabsArray nextTabIndex with
      | some t => if t == "" then (s1, .removed) else (s1.switchTab t, .removed)
      | none => (s1, .removed)

/-- removeAllTabs (lines 305-309): `tabContentMap.forEach` calling
`removeTab` on every key.  Each call deletes exactly the visited key and
never inserts, so the forEach traversal visits precisely the keys present
at the start, in insertion order; it is modelled as a fold over that
snapshot. -/
def LiveTabs.removeAllTabs (s : LiveTabs) : LiveTabs :=
  (mapKeys s.tabContentMap).foldl (fun st k => (st.removeTab k).1) s

/-- reorderingMap (lines 238-253), with `renderedIds` the ids of the tabs
currently in the navbar, left to right.  The body's `if (contentId)` is a
truthiness test: a missing key and an empty-string content id are both
skipped. -/
def LiveTabs.reorderingMap (s : LiveTabs) (renderedIds : List String) : LiveTabs :=
  { s with tabContentMap :=
      renderedIds.foldl (fun acc tabId =>
        match mapGet s.tabContentMap tabId with
        | some contentId => if contentId == "" then acc else mapSet acc tabId contentId
        | none => acc) [] }

/-- getActiveTab (lines 396-398). -/
def LiveTabs.getActiveTab (s : LiveTabs) : String :=
  s.openedId

/-- getAllTabs (lines 405-407). -/
def LiveTabs.getAllTabs (s : LiveTabs) : List String :=
  mapKeys s.tabContentMap

/-- getTabCount (lines 414-416). -/
def LiveTabs.getTabCount (s : LiveTabs) : Nat :=
  mapSize s.tabContentMap

/-- setMaxTabs (lines 426-428). -/
def LiveTabs.setMaxTabs (s : LiveTabs) (newMax : Nat) : LiveTabs :=
  { s with maxNumTabs := some newMax }

/-- Spec-side definition for the removal focus tie-break, following the
spec's words (section 4.2 step 6): in the pre-deletion ordered key
sequence, prefer the tab immediately after the removed one; if none (it
was the last), fall back to the tab immediately before it. -/
def specReplacementFocus (ks : List String) (a : String) : Option String :=
  let i := ks.indexOf a
  if i + 1 < ks.length then ks.get? (i + 1) else ks.get? (i - 1)

/- ======================================================================
   Basic lemmas about the JSMap model
   ====================================================================== -/

theorem mapHas_iff_mem_keys (m : JSMap) (k : String) :
    mapHas m k = true ↔ k ∈ mapKeys m := by
  simp [mapHas, mapKeys, List.any_eq_true, List.mem_map]

theorem mapHas_mapDelete_self (m : JSMap) (k : String) :
    mapHas (mapDelete m k) k = false := by
  simp [mapHas, mapDelete, List.any_eq_true, List.mem_filter]

theorem mapSize_mapSet_of_not_has (m : JSMap) (k v : String)
    (h : mapHas m k = false) : mapSize (mapSet m k v) = mapSize m + 1 := by
  simp [mapSet, h, mapSize]

theorem switchTab_openedId (s : LiveTabs) (t : String) :
    (s.switchTab t).openedId = t := by
  by_cases h : s.openedId = t
  · simp [LiveTabs.switchTab, h]
  · simp [LiveTabs.switchTab, h]

theorem switchTab_tabContentMap (s : LiveTabs) (t : String) :
    (s.switchTab t).tabContentMap = s.tabContentMap := by
  by_cases h : s.openedId = t
  · simp [LiveTabs.switchTab, h]
  · simp [LiveTabs.switchTab, h]

/- ======================================================================
   Claim theorems
   ====================================================================== -/

/-- C8: for every id absent from the store, removeTab(id) reports the
not-found warning and returns with no state change at all: store contents,
iteration order and active id are exactly as before. -/
theorem C8_removeTab_not_found_no_change (s : LiveTabs) (id : String)
    (h : mapHas s.tabContentMap id = false) :
    s.removeTab id = (s, RemoveResult.notFound) := by
  simp [LiveTabs.removeTab, h]

theorem C8_removeTab_not_found_no_change_witness :
    (LiveTabs.init none).removeTab "lt-tab-x" = (LiveTabs.init none, RemoveResult.notFound) :=
  C8_removeTab_not_found_no_change (LiveTabs.init none) "lt-tab-x" (by decide)

/-- C7: for every id not present in the store and different from the
current active id, switchTab(id) still sets the active id to the requested
value: getActiveTab() returns id afterward. -/
theorem C7_switchTab_unknown_id_sets_active (s : LiveTabs) (id : String)
    (_hmem : mapHas s.tabContentMap id = false) (hne : s.openedId ≠ id) :
    (s.switchTab id).getActiveTab = id := by
  simp [LiveTabs.switchTab, LiveTabs.getActiveTab, hne]

theorem C7_switchTab_unknown_id_sets_active_witness :
    ((LiveTabs.init none).switchTab "lt-tab-ghost").getActiveTab = "lt-tab-ghost" :=
  C7_switchTab_unknown_id_sets_active (LiveTabs.init none) "lt-tab-ghost"
    (by decide) (by decide)

/-- C3: whenever a nonzero capacity is set (a zero maximum is falsy in the
guard, which claim C9 treats separately) and the tab count has reached it,
addTab with any title raises the capacity alert and aborts with no state
change whatsoever: in particular getTabCount(), getAllTabs() and
getActiveTab() are all unchanged. -/
theorem C3_addTab_capacity_aborts (s : LiveTabs) (m : Nat) (title : String)
    (hmax : s.maxNumTabs = some m) (hm : m ≠ 0)
    (hsz : mapSize s.tabContentMap ≥ m) :
    s.addTab title = (s, AddResult.maxReached) := by
  have hcap : s.capacityReached = true := by
    simp [LiveTabs.capacityReached, hmax, hm, hsz]
  simp [LiveTabs.addTab, hcap]

/-- The capacity witness state of the spec's example: maxTabs = 2 and two
successful addTab calls. -/
def capacityFullState : LiveTabs :=
  (((LiveTabs.init (some 2)).addTab "A").1.addTab "B").1

theorem C3_addTab_capacity_aborts_witness :
    capacityFullState.addTab "C" = (capacityFullState, AddResult.maxReached) ∧
    capacityFullState.getTabCount = 2 :=
  ⟨C3_addTab_capacity_aborts capacityFullState 2 "C" rfl (by decide) (by decide),
   by decide⟩

/-- C10: when the capacity limit is reached, addTab with a title whose
sanitized id already exists in the store still aborts on the capacity
alert — the capacity check precedes the duplicate check — so no focus
switch to the existing tab happens and getActiveTab() is unchanged. -/
theorem C10_capacity_check_precedes_duplicate_check (s : LiveTabs) (m : Nat)
    (title : String) (hmax : s.maxNumTabs = some m) (hm : m ≠ 0)
    (hsz : mapSize s.tabContentMap ≥ m)
    (_hdup : mapHas s.tabContentMap (tabIdOf title) = true) :
    (s.addTab title).1.getActiveTab = s.getActiveTab ∧
    (s.addTab title).2 = AddResult.maxReached := by
  have hcap : s.capacityReached = true := by
    simp [LiveTabs.capacityReached, hmax, hm, hsz]
  simp [LiveTabs.addTab, hcap]

theorem C10_capacity_check_precedes_duplicate_check_witness :
    (capacityFullState.addTab "a!").1.getActiveTab = capacityFullState.getActiveTab ∧
    (capacityFullState.addTab "a!").2 = AddResult.maxReached :=
  C10_capacity_check_precedes_duplicate_check capacityFullState 2 "a!"
    rfl (by decide) (by decide) (by decide)

/-- C9: a capacity of 0 (set at construction or by setMaxTabs(0)) imposes
no limit: the guard tests JS truthiness of maxNumTabs, and 0 is falsy, so
addTab with a fresh title still inserts a new tab regardless of the
current count. -/
theorem C9_zero_max_means_no_limit (s : LiveTabs) (title : String)
    (hmax : s.maxNumTabs = some 0)
    (hfresh : mapHas s.tabContentMap (tabIdOf title) = false) :
    (s.addTab title).2 = AddResult.added ∧
    (s.addTab title).1.getTabCount = s.getTabCount + 1 := by
  have hcap : s.capacityReached = false := by
    simp [LiveTabs.capacityReached, hmax]
  refine ⟨?_, ?_⟩
  · simp [LiveTabs.addTab, hcap, hfresh]
  · simp [LiveTabs.addTab, hcap, hfresh, LiveTabs.getTabCount,
      switchTab_tabContentMap, mapSize_mapSet_of_not_has]

/-- A state whose capacity was set to 0 via setMaxTabs and which already
holds two tabs. -/
def zeroMaxState : LiveTabs :=
  ((((LiveTabs.init none).setMaxTabs 0).addTab "A").1.addTab "B").1

theorem C9_zero_max_means_no_limit_witness :
    (zeroMaxState.addTab "C").2 = AddResult.added ∧
    (zeroMaxState.addTab "C").1.getTabCount = zeroMaxState.getTabCount + 1 :=
  C9_zero_max_means_no_limit zeroMaxState "C" rfl (by decide)

/-- C4: below the capacity limit, addTab with a title whose sanitized id
equals that of an existing tab switches focus to the existing tab and makes
no other change: the stored map (hence getTabCount() and the set of content
panels) is untouched and the active id becomes the existing tab's id. -/
theorem C4_addTab_duplicate_switches (s : LiveTabs) (title : String)
    (hcap : s.capacityReached = false)
    (hdup : mapHas s.tabContentMap (tabIdOf title) = true) :
    (s.addTab title).1.tabContentMap = s.tabContentMap ∧
    (s.addTab title).1.getActiveTab = tabIdOf title ∧
    (s.addTab title).2 = AddResult.switchedExisting := by
  refine ⟨?_, ?_, ?_⟩
  · simp [LiveTabs.addTab, hcap, hdup, switchTab_tabContentMap]
  · simp [LiveTabs.addTab, hcap, hdup, LiveTabs.getActiveTab, switchTab_openedId]
  · simp [LiveTabs.addTab, hcap, hdup]

/-- The state after addTab with title Tab 1 on a fresh unlimited instance. -/
def oneTabState : LiveTabs :=
  ((LiveTabs.init none).addTab "Tab 1").1

theorem C4_addTab_duplicate_switches_witness :
    ((oneTabState.addTab "tab 1!!").1.tabContentMap = oneTabState.tabContentMap ∧
     (oneTabState.addTab "tab 1!!").1.getActiveTab = tabIdOf "tab 1!!" ∧
     (oneTabState.addTab "tab 1!!").2 = AddResult.switchedExisting) ∧
    (oneTabState.addTab "tab 1!!").1.getTabCount = 1 :=
  ⟨C4_addTab_duplicate_switches oneTabState "tab 1!!" (by decide) (by decide),
   by decide⟩

/-- The state reached by addTab with title A on a fresh unlimited instance:
one stored tab lt-tab-a, which is also the active tab. -/
def singleTabState : LiveTabs :=
  ((LiveTabs.init none).addTab "A").1

/-- C1 (code bug): removing the only tab empties the store but does NOT
clear the active id — getActiveTab() still returns the removed tab's id.
The emptiness test at line 284 checks the key array captured before the
deletion, whose length is at least 1 whenever the removal proceeds, so the
clearing branch (line 285, commented: clear openedId if no tabs are left)
is unreachable. -/
theorem C1_removeTab_last_tab_leaves_stale_active :
    (singleTabState.removeTab "lt-tab-a").1.getTabCount = 0 ∧
    (singleTabState.removeTab "lt-tab-a").1.getActiveTab = "lt-tab-a" ∧
    (singleTabState.removeTab "lt-tab-a").1.getActiveTab ≠ "" := by
  decide

/-- A one-tab state for the removeAllTabs bug, built the same way. -/
def singleTabState2 : LiveTabs :=
  ((LiveTabs.init none).addTab "A").1

/-- C5 (code bug): removeAllTabs() empties the store, but the active id is
not cleared: after removing the last tab the stale id of the last removed
tab remains in openedId (same root cause as the last-tab removeTab bug),
so getActiveTab() is not the empty string. -/
theorem C5_removeAllTabs_leaves_stale_active :
    singleTabState2.removeAllTabs.getTabCount = 0 ∧
    singleTabState2.removeAllTabs.getActiveTab = "lt-tab-a" ∧
    singleTabState2.removeAllTabs.getActiveTab ≠ "" := by
  decide

/- ======================================================================
   C2: the removal focus tie-break
   ====================================================================== -/

theorem jsGetAt_natCast (l : List String) (n : Nat) :
    jsGetAt l (n : Int) = l.get? n := by
  simp [jsGetAt]

/-- C2: when removeTab removes the currently active tab of a store with at
least two tabs, the tab that gains focus is exactly the spec's tie-break:
the tab immediately after the removed one in the pre-deletion order, or,
when the removed tab was the last, the tab immediately before it. -/
theorem C2_removeTab_active_focus_tie_break (s : LiveTabs)
    (hne : ∀ k ∈ mapKeys s.tabContentMap, k ≠ "")
    (hsz : 2 ≤ mapSize s.tabContentMap)
    (hact : mapHas s.tabContentMap s.openedId = true) :
    specReplacementFocus (mapKeys s.tabContentMap) s.openedId
      = some ((s.removeTab s.openedId).1.getActiveTab) := by
  have hmem : s.openedId ∈ mapKeys s.tabContentMap :=
    (mapHas_iff_mem_keys _ _).mp hact
  have hlen : 2 ≤ (mapKeys s.tabContentMap).length := by
    simpa [mapSize, mapKeys] using hsz
  have hidx : (mapKeys s.tabContentMap).indexOf s.openedId
      < (mapKeys s.tabContentMap).length :=
    List.indexOf_lt_length.mpr hmem
  have hdel : mapHas (mapDelete s.tabContentMap s.openedId) s.openedId = false :=
    mapHas_mapDelete_self _ _
  set ks := mapKeys s.tabContentMap with hks
  set i := ks.indexOf s.openedId with hi
  have hji : jsIndexOf ks s.openedId = (i : Int) := by
    simp [jsIndexOf, hmem, hi]
  have hlen0 : (ks.length == 0) = false := beq_eq_false_iff_ne.mpr (by omega)
  by_cases hc : i + 1 < ks.length
  · -- a next tab exists: it gains focus
    have hcast : (i : Int) + 1 = ((i + 1 : Nat) : Int) := by push_cast; ring
    have hclt : (i : Int) < (ks.length : Int) - 1 := by omega
    have hget : ks.get? (i + 1) = some (ks.get ⟨i + 1, hc⟩) := List.get?_eq_get hc
    have htmem : ks.get ⟨i + 1, hc⟩ ∈ ks := List.get_mem ks _ _
    have htne : (ks.get ⟨i + 1, hc⟩ == "") = false := by
      simpa using hne _ htmem
    simp only [LiveTabs.removeTab, hact, LiveTabs.getActiveTab]
    rw [if_neg (by simp)]
    rw [if_neg (by rw [hdel]; exact Bool.false_ne_true)]
    rw [if_neg (by rw [hlen0]; exact Bool.false_ne_true)]
    rw [hji, if_pos hclt, hcast, jsGetAt_natCast, hget]
    simp only [htne, Bool.false_eq_true, if_false]
    rw [switchTab_openedId]
    simp [specReplacementFocus, hc, hget, hi]
  · -- the removed tab was the last one: the previous tab gains focus
    have h1i : 1 ≤ i := by omega
    have hprev : i - 1 < ks.length := by omega
    have hcast : (i : Int) - 1 = ((i - 1 : Nat) : Int) := by omega
    have hcge : ¬ (i : Int) < (ks.length : Int) - 1 := by omega
    have hget : ks.get? (i - 1) = some (ks.get ⟨i - 1, hprev⟩) := List.get?_eq_get hprev
    have htmem : ks.get ⟨i - 1, hprev⟩ ∈ ks := List.get_mem ks _ _
    have htne : (ks.get ⟨i - 1, hprev⟩ == "") = false := by
      simpa using hne _ htmem
    simp only [LiveTabs.removeTab, hact, LiveTabs.getActiveTab]
    rw [if_neg (by simp)]
    rw [if_neg (by rw [hdel]; exact Bool.false_ne_true)]
    rw [if_neg (by rw [hlen0]; exact Bool.false_ne_true)]
    rw [hji, if_neg hcge, hcast, jsGetAt_natCast, hget]
    simp only [htne, Bool.false_eq_true, if_false]
    rw [switchTab_openedId]
    simp [specReplacementFocus, hc, hget, hi]

/-- The state reached by three addTab calls A, B, C on a fresh unlimited
instance: ordered tabs lt-tab-a, lt-tab-b, lt-tab-c with lt-tab-c active. -/
def threeTabState : LiveTabs :=
  ((((LiveTabs.init none).addTab "A").1.addTab "B").1.addTab "C").1

/-- The same three tabs with focus switched to the first one, lt-tab-a. -/
def threeTabStateFirstActive : LiveTabs :=
  threeTabState.switchTab "lt-tab-a"

theorem C2_removeTab_active_focus_tie_break_witness :
    (specReplacementFocus (mapKeys threeTabState.tabContentMap) threeTabState.openedId
       = some ((threeTabState.removeTab threeTabState.openedId).1.getActiveTab) ∧
     (threeTabState.removeTab threeTabState.openedId).1.getActiveTab = "lt-tab-b") ∧
    (specReplacementFocus (mapKeys threeTabStateFirstActive.tabContentMap)
        threeTabStateFirstActive.openedId
       = some ((threeTabStateFirstActive.removeTab
            threeTabStateFirstActive.openedId).1.getActiveTab) ∧
     (threeTabStateFirstActive.removeTab
        threeTabStateFirstActive.openedId).1.getActiveTab = "lt-tab-b") :=
  ⟨⟨C2_removeTab_active_focus_tie_break threeTabState
      (by decide) (by decide) (by decide), by decide⟩,
   ⟨C2_removeTab_active_focus_tie_break threeTabStateFirstActive
      (by decide) (by decide) (by decide), by decide⟩⟩

/- ======================================================================
   C6: reorderingMap rebuilds the store from the rendered order
   ====================================================================== -/

theorem mapHas_eq_isSome_mapGet (m : JSMap) (k : String) :
    mapHas m k = (mapGet m k).isSome := by
  induction m with
  | nil => rfl
  | cons p m ih =>
      by_cases h : p.1 == k
      · simp [mapHas, mapGet, List.find?, h]
      · simpa [mapHas, mapGet, List.find?, h, List.any_cons] using ih

theorem mapGet_value_mem (m : JSMap) (k c : String) (h : mapGet m k = some c) :
    ∃ p ∈ m, p.2 = c := by
  unfold mapGet at h
  cases hfind : m.find? (fun p => p.1 == k) with
  | none => rw [hfind] at h; simp at h
  | some p =>
      rw [hfind] at h
      simp at h
      exact ⟨p, List.mem_of_find?_eq_some hfind, h⟩

theorem mapSet_of_not_has (m : JSMap) (k v : String) (h : mapHas m k = false) :
    mapSet m k v = m ++ [(k, v)] := by
  simp [mapSet, h]

theorem mapHas_append (a b : JSMap) (k : String) :
    mapHas (a ++ b) k = (mapHas a k || mapHas b k) := by
  simp [mapHas, List.any_append]

/-- The fold of reorderingMap, characterized on any accumulator whose keys
are disjoint from the ids still to process: it appends, for each processed
id that the old map knows (with a truthy content id), the pair of that id
and its old content id, in processing order. -/
theorem reorderingMap_foldl_eq (m : JSMap) (ids : List String) (acc : JSMap)
    (hnd : ids.Nodup) (hacc : ∀ id ∈ ids, mapHas acc id = false)
    (hv : ∀ p ∈ m, p.2 ≠ "") :
    ids.foldl (fun acc tabId =>
        match mapGet m tabId with
        | some contentId => if contentId == "" then acc else mapSet acc tabId contentId
        | none => acc) acc
      = acc ++ (ids.filter (fun id => mapHas m id)).map
          (fun id => (id, (mapGet m id).getD "")) := by
  induction ids generalizing acc with
  | nil => simp
  | cons id ids ih =>
      have hnd' : ids.Nodup := hnd.of_cons
      have hid : id ∉ ids := (List.nodup_cons.mp hnd).1
      cases hget : mapGet m id with
      | none =>
          have hhas : mapHas m id = false := by
            rw [mapHas_eq_isSome_mapGet, hget]; rfl
          simp only [List.foldl_cons, hget]
          rw [ih acc hnd' (fun j hj => hacc j (List.mem_cons_of_mem _ hj))]
          simp [List.filter_cons, hhas]
      | some c =>
          have hcne : c ≠ "" := by
            obtain ⟨p, hp, hpc⟩ := mapGet_value_mem m id c hget
            exact hpc ▸ hv p hp
          have hcne' : (c == "") = false := beq_eq_false_iff_ne.mpr hcne
          have hhas : mapHas m id = true := by
            rw [mapHas_eq_isSome_mapGet, hget]; rfl
          have haccid : mapHas acc id = false := hacc id (List.mem_cons_self _ _)
          simp only [List.foldl_cons, hget, hcne', Bool.false_eq_true, if_false,
            mapSet_of_not_has acc id c haccid]
          rw [ih (acc ++ [(id, c)]) hnd' ?_]
          · simp [List.filter_cons, hhas, hget]
          · intro j hj
            rw [mapHas_append]
            have h1 : mapHas acc j = false := hacc j (List.mem_cons_of_mem _ hj)
            have h2 : mapHas [(id, c)] j = false := by
              have : id ≠ j := fun h => hid (h ▸ hj)
              simp [mapHas, this]
            rw [h1, h2]; rfl

/-- C6: reorderingMap replaces the store by the rendered order's projection:
its entries, in iteration order, are exactly the rendered ids that were keys
of the previous map, in rendered order, each keeping its previous content
id; rendered ids unknown to the map and old keys no longer rendered are
dropped.  In particular keysInOrder() afterwards equals the rendered
left-to-right order filtered to known tabs.  Hypotheses: the rendered tab
ids are pairwise distinct (DOM ids), and every stored content id is
non-empty (they all end in -container), which keeps the truthiness test
`if (contentId)` from dropping a live entry. -/
theorem C6_reorderingMap_rebuilds_from_rendered_order (s : LiveTabs)
    (renderedIds : List String) (hs : renderedIds.Nodup)
    (hv : ∀ p ∈ s.tabContentMap, p.2 ≠ "") :
    (s.reorderingMap renderedIds).tabContentMap
      = (renderedIds.filter (fun id => mapHas s.tabContentMap id)).map
          (fun id => (id, (mapGet s.tabContentMap id).getD "")) ∧
    mapKeys (s.reorderingMap renderedIds).tabContentMap
      = renderedIds.filter (fun id => mapHas s.tabContentMap id) := by
  have h := reorderingMap_foldl_eq s.tabContentMap renderedIds [] hs (fun id _ => rfl) hv
  constructor
  · simpa [LiveTabs.reorderingMap] using h
  · have h2 : (s.reorderingMap renderedIds).tabContentMap
        = (renderedIds.filter (fun id => mapHas s.tabContentMap id)).map
            (fun id => (id, (mapGet s.tabContentMap id).getD "")) := by
      simpa [LiveTabs.reorderingMap] using h
    rw [h2]
    simp [mapKeys, List.map_map, Function.comp_def]

/-- A three-tab store with lt-tab-b active, about to be rebuilt from the
rendered order [lt-tab-c, lt-tab-a, lt-tab-x] (lt-tab-x unknown to the
store, lt-tab-b no longer rendered). -/
def reorderState : LiveTabs :=
  { openedId := "lt-tab-b", maxNumTabs := none,
    tabContentMap := [("lt-tab-a", "a-container"), ("lt-tab-b", "b-container"),
                      ("lt-tab-c", "c-container")] }

theorem C6_reorderingMap_rebuilds_from_rendered_order_witness :
    (reorderState.reorderingMap ["lt-tab-c", "lt-tab-a", "lt-tab-x"]).tabContentMap
      = ((["lt-tab-c", "lt-tab-a", "lt-tab-x"].filter
            (fun id => mapHas reorderState.tabContentMap id)).map
          (fun id => (id, (mapGet reorderState.tabContentMap id).getD ""))) ∧
    mapKeys (reorderState.reorderingMap ["lt-tab-c", "lt-tab-a", "lt-tab-x"]).tabContentMap
      = ["lt-tab-c", "lt-tab-a", "lt-tab-x"].filter
          (fun id => mapHas reorderState.tabContentMap id) :=
  C6_reorderingMap_rebuilds_from_rendered_order reorderState
    ["lt-tab-c", "lt-tab-a", "lt-tab-x"] (by decide) (by decide)
